import Mathlib

/-!
Verification of the local-places gateway of this repository: the pydantic
schemas and validators of `local_places/schemas.py` and the Google Places
client of `local_places/google_places.py`, as a shallow embedding.

Conventions of the embedding:
* JSON documents (request bodies built by the client, payloads returned by
  `response.json()`) are modelled by `JValue`, with rational numbers for
  JSON numbers.  A JSON object is an association list of distinct keys in
  insertion order (Python's `json.loads` keeps one binding per key);
  `jLookup` returns the first binding.
* Python falsiness tests (`if not raw:`, `if keyword:`) are modelled by
  `jFalsy` on JSON values and by explicit emptiness tests on strings.
* pydantic validation of a model is a `Bool`-valued function that is true
  exactly when every field constraint and every `field_validator` passes.
* A Python exception escaping a normalization step (an `AttributeError` on a
  non-dict, a `TypeError` on an unhashable key, a pydantic validation error
  on an ill-typed field) is an `Except.error` carrying a short tag; none of
  these branches is reachable from a well-typed provider payload.
-/

set_option maxRecDepth 4000

namespace LocalPlaces

/-- JSON values as produced by `response.json()` / consumed by `httpx` as a
request body. -/
inductive JValue where
  | null : JValue
  | bool : Bool → JValue
  | num : ℚ → JValue
  | str : String → JValue
  | arr : List JValue → JValue
  | obj : List (String × JValue) → JValue

/-- Python `dict.get(key)` on a JSON object (association list, first binding
wins; `json.loads` produces distinct keys). -/
def jLookup : List (String × JValue) → String → Option JValue
  | [], _ => none
  | (k, v) :: rest, key => if k = key then some v else jLookup rest key

/-- Python truthiness of a JSON value (used by `if not raw:` guards). -/
def jFalsy : JValue → Bool
  | .null => true
  | .bool b => !b
  | .num q => decide (q = 0)
  | .str s => decide (s = "")
  | .arr xs => xs.isEmpty
  | .obj fs => fs.isEmpty

/-! ## schemas.py: data model -/

/-- schemas.LatLng.  The `Field(ge/le)` bounds are enforced when the model is
constructed, see `mkLatLng`. -/
structure LatLng where
  lat : ℚ
  lng : ℚ

/-- schemas.LocationBias. -/
structure LocationBias where
  lat : ℚ
  lng : ℚ
  radius_m : ℚ

/-- schemas.Filters. -/
structure Filters where
  types : Option (List String) := none
  open_now : Option Bool := none
  min_rating : Option ℚ := none
  price_levels : Option (List Int) := none
  keyword : Option String := none

/-- schemas.SearchRequest. -/
structure SearchRequest where
  query : String
  location_bias : Option LocationBias := none
  filters : Option Filters := none
  limit : Int := 10
  page_token : Option String := none

/-- schemas.PlaceSummary. -/
structure PlaceSummary where
  place_id : String
  name : Option String := none
  address : Option String := none
  location : Option LatLng := none
  rating : Option ℚ := none
  price_level : Option Int := none
  types : Option (List String) := none
  open_now : Option Bool := none

/-- schemas.SearchResponse. -/
structure SearchResponse where
  results : List PlaceSummary
  next_page_token : Option String := none

/-- schemas.LocationResolveRequest. -/
structure LocationResolveRequest where
  location_text : String
  limit : Int := 5

/-- schemas.ResolvedLocation. -/
structure ResolvedLocation where
  place_id : String
  name : Option String := none
  address : Option String := none
  location : Option LatLng := none
  types : Option (List String) := none

/-- schemas.LocationResolveResponse. -/
structure LocationResolveResponse where
  results : List ResolvedLocation

/-- schemas.PlaceDetails. -/
structure PlaceDetails where
  place_id : String
  name : Option String := none
  address : Option String := none
  location : Option LatLng := none
  rating : Option ℚ := none
  price_level : Option Int := none
  types : Option (List String) := none
  phone : Option String := none
  website : Option String := none
  hours : Option (List String) := none
  open_now : Option Bool := none

/-! ## schemas.py: validators -/

/-- The `Field(min_length=1)` rule on a string field (pydantic counts characters of the
string as given; no trimming happens anywhere in validation). -/
def minLengthOneOk (s : String) : Bool := decide (1 ≤ s.length)

/-- Filters.validate_types: at most one included type is allowed. -/
def validate_types : Option (List String) → Bool
  | none => true
  | some l => decide (l.length ≤ 1)

/-- Membership of an int in Python `range(0, 5)`. -/
def inPriceRange (level : Int) : Bool := decide (0 ≤ level) && decide (level < 5)

/-- Filters.validate_price_levels: the code collects the levels outside
`range(0, 5)` and raises when that list is nonempty, so it accepts exactly
when every level is in range. -/
def validate_price_levels : Option (List Int) → Bool
  | none => true
  | some levels => levels.all inPriceRange

/-- Filters.min_rating: `Field(ge=0, le=5)` combined with validate_min_rating,
which raises when `(value * 2) % 1 != 0`; on rationals `x % 1 == 0` holds
exactly when x has denominator 1. -/
def validate_min_rating : Option ℚ → Bool
  | none => true
  | some v => decide (0 ≤ v) && decide (v ≤ 5) && decide ((2 * v).den = 1)

/-- Filters.keyword: `Field(min_length=1)`. -/
def validate_keyword : Option String → Bool
  | none => true
  | some k => minLengthOneOk k

/-- Validation of a whole Filters model. -/
def filtersValid (f : Filters) : Bool :=
  validate_types f.types && validate_price_levels f.price_levels &&
    validate_min_rating f.min_rating && validate_keyword f.keyword

/-- LocationBias field bounds: lat ∈ [-90, 90], lng ∈ [-180, 180],
radius_m > 0. -/
def locationBiasValid (b : LocationBias) : Bool :=
  decide (-90 ≤ b.lat) && decide (b.lat ≤ 90) && decide (-180 ≤ b.lng) &&
    decide (b.lng ≤ 180) && decide (0 < b.radius_m)

/-- Validation of a SearchRequest: query has min_length=1, limit ∈ [1, 20],
and the nested models validate.  page_token has no constraint. -/
def searchRequestValid (r : SearchRequest) : Bool :=
  minLengthOneOk r.query && decide (1 ≤ r.limit) && decide (r.limit ≤ 20) &&
    (match r.location_bias with | none => true | some b => locationBiasValid b) &&
    (match r.filters with | none => true | some f => filtersValid f)

/-- Validation of a LocationResolveRequest: location_text has min_length=1
and limit ∈ [1, 10]. -/
def locationResolveRequestValid (r : LocationResolveRequest) : Bool :=
  minLengthOneOk r.location_text && decide (1 ≤ r.limit) && decide (r.limit ≤ 10)

/-! ## google_places.py: price-level tables and query building -/

/-- PRICE_LEVEL_TO_ENUM as a function; `none` corresponds to a KeyError on
subscripting the Python dict with a key outside {0, 1, 2, 3, 4}. -/
def priceLevelToEnum (level : Int) : Option String :=
  if level = 0 then some "PRICE_LEVEL_FREE"
  else if level = 1 then some "PRICE_LEVEL_INEXPENSIVE"
  else if level = 2 then some "PRICE_LEVEL_MODERATE"
  else if level = 3 then some "PRICE_LEVEL_EXPENSIVE"
  else if level = 4 then some "PRICE_LEVEL_VERY_EXPENSIVE"
  else none

/-- ENUM_TO_PRICE_LEVEL, the inversion comprehension of PRICE_LEVEL_TO_ENUM;
`.get` on an unrecognized name is `none`. -/
def enumToPriceLevel (name : String) : Option Int :=
  if name = "PRICE_LEVEL_FREE" then some 0
  else if name = "PRICE_LEVEL_INEXPENSIVE" then some 1
  else if name = "PRICE_LEVEL_MODERATE" then some 2
  else if name = "PRICE_LEVEL_EXPENSIVE" then some 3
  else if name = "PRICE_LEVEL_VERY_EXPENSIVE" then some 4
  else none

/-- The whitespace set of Python `str.strip()` (ASCII fragment). -/
def isPySpace (c : Char) : Bool :=
  c == ' ' || c == '\t' || c == '\n' || c == '\r' || c == '\x0b' || c == '\x0c'

/-- Python `str.strip()`: drop whitespace from both ends. -/
def pyStrip (s : String) : String :=
  ⟨((s.data.dropWhile isPySpace).reverse.dropWhile isPySpace).reverse⟩

/-- build_text_query: when the keyword filter is truthy (present and
nonempty), return `f"{request.query} {keyword}".strip()`, otherwise the query
unchanged. -/
def build_text_query (r : SearchRequest) : String :=
  let keyword := match r.filters with
    | some f => f.keyword
    | none => none
  match keyword with
  | some k => if k = "" then r.query else pyStrip (r.query ++ " " ++ k)
  | none => r.query

/-- The `pageToken` group of build_search_body: added only when
`request.page_token` is truthy (present and nonempty). -/
def tokenPart (r : SearchRequest) : List (String × JValue) :=
  match r.page_token with
  | some tok => if tok = "" then [] else [("pageToken", JValue.str tok)]
  | none => []

/-- The `locationBias` group of build_search_body (a model instance is always
truthy). -/
def biasPart (r : SearchRequest) : List (String × JValue) :=
  match r.location_bias with
  | some b =>
      [("locationBias", JValue.obj
        [("circle", JValue.obj
          [("center", JValue.obj
            [("latitude", JValue.num b.lat), ("longitude", JValue.num b.lng)]),
           ("radius", JValue.num b.radius_m)])])]
  | none => []

/-- The filter groups of build_search_body.  `if filters.types:` and
`if filters.price_levels:` are truthiness tests, so an empty list adds no key.
A price level outside the table would raise KeyError in Python; validated
requests never reach that branch, it is modelled as `JValue.null`. -/
def filtersPart (r : SearchRequest) : List (String × JValue) :=
  match r.filters with
  | none => []
  | some f =>
    (match f.types with
      | some (ty :: _) => [("includedType", JValue.str ty)]
      | _ => []) ++
    (match f.open_now with
      | some b => [("openNow", JValue.bool b)]
      | none => []) ++
    (match f.min_rating with
      | some m => [("minRating", JValue.num m)]
      | none => []) ++
    (match f.price_levels with
      | some (l :: ls) =>
          [("priceLevels", JValue.arr ((l :: ls).map (fun lv =>
            match priceLevelToEnum lv with
            | some s => JValue.str s
            | none => JValue.null)))]
      | _ => [])

/-- The two unconditional keys of build_search_body. -/
def bodyHead (r : SearchRequest) : List (String × JValue) :=
  [("textQuery", JValue.str (build_text_query r)),
   ("pageSize", JValue.num r.limit)]

/-- build_search_body: the wire body for places:searchText, keys in the
insertion order of the Python function. -/
def build_search_body (r : SearchRequest) : List (String × JValue) :=
  bodyHead r ++ tokenPart r ++ biasPart r ++ filtersPart r

/-! ## Helper lemmas -/

theorem jLookup_append_none {xs : List (String × JValue)} (ys : List (String × JValue))
    {k : String} (h : jLookup xs k = none) : jLookup (xs ++ ys) k = jLookup ys k := by
  induction xs with
  | nil => rfl
  | cons p rest ih =>
      obtain ⟨k1, v1⟩ := p
      by_cases hk : k1 = k
      · simp [jLookup, hk] at h
      · simp only [jLookup, hk, if_neg hk, List.cons_append] at h ⊢
        exact ih h

theorem jLookup_append_some {xs : List (String × JValue)} (ys : List (String × JValue))
    {k : String} {v : JValue} (h : jLookup xs k = some v) :
    jLookup (xs ++ ys) k = some v := by
  induction xs with
  | nil => simp [jLookup] at h
  | cons p rest ih =>
      obtain ⟨k1, v1⟩ := p
      by_cases hk : k1 = k
      · simp only [jLookup, if_pos hk, List.cons_append] at h ⊢
        exact h
      · simp only [jLookup, if_neg hk, List.cons_append] at h ⊢
        exact ih h

theorem jLookup_eq_none_of_keys {xs : List (String × JValue)} {k : String}
    (h : ∀ p ∈ xs, p.1 ≠ k) : jLookup xs k = none := by
  induction xs with
  | nil => rfl
  | cons p rest ih =>
      obtain ⟨k1, v1⟩ := p
      have hne : k1 ≠ k := h (k1, v1) (List.mem_cons_self _ _)
      simp only [jLookup, if_neg hne]
      exact ih fun q hq => h q (List.mem_cons_of_mem _ hq)

theorem biasPart_keys (r : SearchRequest) : ∀ p ∈ biasPart r, p.1 = "locationBias" := by
  intro p hp
  unfold biasPart at hp
  rcases hb : r.location_bias with _ | b <;> rw [hb] at hp
  · simp at hp
  · simp only [List.mem_singleton] at hp
    rw [hp]

theorem filtersPart_keys (r : SearchRequest) :
    ∀ p ∈ filtersPart r,
      p.1 = "includedType" ∨ p.1 = "openNow" ∨ p.1 = "minRating" ∨ p.1 = "priceLevels" := by
  intro p hp
  unfold filtersPart at hp
  rcases hf : r.filters with _ | f <;> rw [hf] at hp
  · simp at hp
  · simp only [List.mem_append] at hp
    rcases hp with ((hp | hp) | hp) | hp
    · rcases ht : f.types with _ | ⟨_ | ⟨ty, tys⟩⟩ <;> rw [ht] at hp <;>
        simp only [List.mem_singleton, List.not_mem_nil] at hp
      rw [hp]; simp
    · rcases ho : f.open_now with _ | b <;> rw [ho] at hp <;>
        simp only [List.mem_singleton, List.not_mem_nil] at hp
      rw [hp]; simp
    · rcases hm : f.min_rating with _ | m <;> rw [hm] at hp <;>
        simp only [List.mem_singleton, List.not_mem_nil] at hp
      rw [hp]; simp
    · rcases hl : f.price_levels with _ | ⟨_ | ⟨l, ls⟩⟩ <;> rw [hl] at hp <;>
        simp only [List.mem_singleton, List.not_mem_nil] at hp
      rw [hp]; simp

theorem string_one_le_length_iff (s : String) : (1 ≤ s.length) ↔ s ≠ "" := by
  obtain ⟨data⟩ := s
  cases data with
  | nil => simp [String.length]
  | cons c cs =>
      constructor
      · intro _ h
        exact List.cons_ne_nil c cs (congrArg String.data h)
      · intro _
        show 1 ≤ (c :: cs).length
        simp

theorem rat_den_one_iff_int (q : ℚ) : q.den = 1 ↔ ∃ n : ℤ, q = (n : ℚ) := by
  constructor
  · intro h
    exact ⟨q.num, ((Rat.den_eq_one_iff q).mp h).symm⟩
  · rintro ⟨n, rfl⟩
    exact Rat.den_intCast n

/-! ## Claim theorems on the pure layer -/

/-- C2: encoding then decoding every price level in {0,1,2,3,4} returns the
same value, the encode table is defined on exactly that domain, and the
validator accepts a list of price levels exactly when every member lies in
{0,1,2,3,4}. -/
theorem C2_price_level_round_trip :
    (∀ v : Int, 0 ≤ v → v < 5 →
      (priceLevelToEnum v).bind enumToPriceLevel = some v) ∧
    (∀ v : Int, (priceLevelToEnum v).isSome = true ↔ (0 ≤ v ∧ v < 5)) ∧
    (∀ l : List Int, validate_price_levels (some l) = true ↔
      ∀ v ∈ l, 0 ≤ v ∧ v < 5) := by
  refine ⟨?_, ?_, ?_⟩
  · intro v h0 h5
    have hv : v = 0 ∨ v = 1 ∨ v = 2 ∨ v = 3 ∨ v = 4 := by omega
    rcases hv with rfl | rfl | rfl | rfl | rfl <;> rfl
  · intro v
    unfold priceLevelToEnum
    split_ifs with h0 h1 h2 h3 h4 <;> simp <;> omega
  · intro l
    simp [validate_price_levels, inPriceRange, List.all_eq_true]

/-- C2 witness: round trip at 3, table defined at 4, validator accepting the
full domain. -/
theorem C2_price_level_round_trip_witness :
    (priceLevelToEnum 3).bind enumToPriceLevel = some 3 ∧
    validate_price_levels (some [0, 1, 2, 3, 4]) = true := by
  constructor
  · exact C2_price_level_round_trip.1 3 (by decide) (by decide)
  · exact (C2_price_level_round_trip.2.2 [0, 1, 2, 3, 4]).mpr (by decide)

/-- C4 counterexample: a single space is whitespace-only (it strips to the
empty string) yet both a SearchRequest with that query and a
LocationResolveRequest with that location text pass validation, because
`Field(min_length=1)` counts characters and nothing trims. -/
theorem C4_whitespace_only_query_accepted :
    pyStrip " " = "" ∧
    searchRequestValid { query := " " } = true ∧
    locationResolveRequestValid { location_text := " " } = true :=
  ⟨rfl, rfl, rfl⟩

/-- C4 amended: the min_length=1 rule on SearchRequest.query and
LocationResolveRequest.location_text rejects exactly the empty string, with no
trimming: every nonempty string, including whitespace-only ones, is accepted.
(With default values for the remaining fields, whole-request validity reduces
to this rule.) -/
theorem C4_nonempty_untrimmed (s : String) :
    (minLengthOneOk s = true ↔ s ≠ "") ∧
    (searchRequestValid { query := s } = true ↔ s ≠ "") ∧
    (locationResolveRequestValid { location_text := s } = true ↔ s ≠ "") := by
  have hlen : (minLengthOneOk s = true) ↔ s ≠ "" := by
    simpa [minLengthOneOk] using string_one_le_length_iff s
  refine ⟨hlen, ?_, ?_⟩
  · simpa [searchRequestValid, filtersValid] using hlen
  · simpa [locationResolveRequestValid] using hlen

/-- C6: when a (validated, hence nonempty) keyword filter is present the built
text query is the stripped concatenation of query and keyword; with no keyword
it is the query unchanged; and the built body carries the text query under the
textQuery key. -/
theorem C6_text_query_composition (r : SearchRequest) :
    (∀ f k, r.filters = some f → f.keyword = some k → k ≠ "" →
      build_text_query r = pyStrip (r.query ++ " " ++ k)) ∧
    ((r.filters = none ∨ ∃ f, r.filters = some f ∧ f.keyword = none) →
      build_text_query r = r.query) ∧
    jLookup (build_search_body r) "textQuery" =
      some (JValue.str (build_text_query r)) := by
  refine ⟨?_, ?_, ?_⟩
  · intro f k hf hk hne
    simp [build_text_query, hf, hk, hne]
  · rintro (hf | ⟨f, hf, hk⟩)
    · simp [build_text_query, hf]
    · simp [build_text_query, hf, hk]
  · rfl

/-- C6 witness: query "coffee" with keyword "vegan" builds "coffee vegan";
without a keyword it stays "coffee". -/
theorem C6_text_query_composition_witness :
    build_text_query { query := "coffee", filters := some { keyword := some "vegan" } } =
      "coffee vegan" ∧
    build_text_query { query := "coffee" } = "coffee" := by
  constructor
  · have h := (C6_text_query_composition
      { query := "coffee", filters := some { keyword := some "vegan" } }).1
      { keyword := some "vegan" } "vegan" rfl rfl (by decide)
    exact h.trans rfl
  · exact (C6_text_query_composition { query := "coffee" }).2.1 (Or.inl rfl)

/-- C7: min_rating validation accepts exactly the rationals in [0, 5] whose
double is an integer; in particular it rejects 3.3, 5.5 and -0.5 and accepts
3.5, 0 and 5. -/
theorem C7_min_rating_half_steps :
    (∀ v : ℚ, validate_min_rating (some v) = true ↔
      (0 ≤ v ∧ v ≤ 5 ∧ ∃ n : ℤ, 2 * v = (n : ℚ))) ∧
    validate_min_rating (some (33 / 10)) = false ∧
    validate_min_rating (some (7 / 2)) = true ∧
    validate_min_rating (some 0) = true ∧
    validate_min_rating (some 5) = true ∧
    validate_min_rating (some (11 / 2)) = false ∧
    validate_min_rating (some (-(1 / 2))) = false := by
  have hiff : ∀ v : ℚ, validate_min_rating (some v) = true ↔
      (0 ≤ v ∧ v ≤ 5 ∧ ∃ n : ℤ, 2 * v = (n : ℚ)) := by
    intro v
    simp only [validate_min_rating, Bool.and_eq_true, decide_eq_true_eq]
    constructor
    · rintro ⟨⟨h0, h5⟩, hden⟩
      exact ⟨h0, h5, (rat_den_one_iff_int (2 * v)).mp hden⟩
    · rintro ⟨h0, h5, n, hn⟩
      exact ⟨⟨h0, h5⟩, (rat_den_one_iff_int (2 * v)).mpr ⟨n, hn⟩⟩
  have hfalse : ∀ v : ℚ, ¬(0 ≤ v ∧ v ≤ 5 ∧ ∃ n : ℤ, 2 * v = (n : ℚ)) →
      validate_min_rating (some v) = false := by
    intro v hv
    cases hb : validate_min_rating (some v) with
    | false => rfl
    | true => exact absurd ((hiff v).mp hb) hv
  refine ⟨hiff, ?_, ?_, ?_, ?_, ?_, ?_⟩
  · refine hfalse _ ?_
    rintro ⟨-, -, n, hn⟩
    have h33 : (33 : ℚ) = (n : ℚ) * 5 := by rw [← hn]; norm_num
    have h33i : (33 : ℤ) = n * 5 := by exact_mod_cast h33
    omega
  · exact (hiff _).mpr ⟨by norm_num, by norm_num, 7, by norm_num⟩
  · exact (hiff _).mpr ⟨by norm_num, by norm_num, 0, by norm_num⟩
  · exact (hiff _).mpr ⟨by norm_num, by norm_num, 10, by norm_num⟩
  · refine hfalse _ ?_
    rintro ⟨-, h5, -⟩
    norm_num at h5
  · refine hfalse _ ?_
    rintro ⟨h0, -, -⟩
    norm_num at h0

/-- C10: the built body has no pageToken key exactly when the request's
page_token is absent or the empty string, and a nonempty token is forwarded
verbatim under the pageToken key. -/
theorem C10_page_token_presence (r : SearchRequest) :
    (jLookup (build_search_body r) "pageToken" = none ↔
      (r.page_token = none ∨ r.page_token = some "")) ∧
    (∀ tok, r.page_token = some tok → tok ≠ "" →
      jLookup (build_search_body r) "pageToken" = some (JValue.str tok)) := by
  have hhead : jLookup (bodyHead r) "pageToken" = none := rfl
  have hbias : jLookup (biasPart r) "pageToken" = none :=
    jLookup_eq_none_of_keys fun p hp => by
      have := biasPart_keys r p hp
      simp [this]
  have hfilters : jLookup (filtersPart r) "pageToken" = none :=
    jLookup_eq_none_of_keys fun p hp => by
      rcases filtersPart_keys r p hp with h | h | h | h <;> simp [h]
  have hbody : jLookup (build_search_body r) "pageToken" =
      jLookup (tokenPart r ++ (biasPart r ++ filtersPart r)) "pageToken" := by
    unfold build_search_body
    rw [List.append_assoc, List.append_assoc]
    exact jLookup_append_none _ hhead
  constructor
  · constructor
    · intro hnone
      rcases htok : r.page_token with _ | tok
      · exact Or.inl rfl
      · by_cases he : tok = ""
        · exact Or.inr (by rw [he])
        · exfalso
          have hpt : jLookup (tokenPart r) "pageToken" = some (JValue.str tok) := by
            simp [tokenPart, htok, he, jLookup]
          rw [hbody, jLookup_append_some _ hpt] at hnone
          exact Option.noConfusion hnone
    · intro h
      have hpt : jLookup (tokenPart r) "pageToken" = none := by
        rcases h with h | h <;> simp [tokenPart, h, jLookup]
      rw [hbody, jLookup_append_none _ hpt, jLookup_append_none _ hbias]
      exact hfilters
  · intro tok htok he
    have hpt : jLookup (tokenPart r) "pageToken" = some (JValue.str tok) := by
      simp [tokenPart, htok, he, jLookup]
    rw [hbody]
    exact jLookup_append_some _ hpt

/-- C10 witness: an empty-string token is omitted, a real token is kept. -/
theorem C10_page_token_presence_witness :
    jLookup (build_search_body { query := "coffee", page_token := some "" }) "pageToken" =
      none ∧
    jLookup (build_search_body { query := "coffee", page_token := some "tok123" }) "pageToken" =
      some (JValue.str "tok123") := by
  constructor
  · exact (C10_page_token_presence { query := "coffee", page_token := some "" }).1.mpr
      (Or.inr rfl)
  · exact (C10_page_token_presence { query := "coffee", page_token := some "tok123" }).2
      "tok123" rfl (by decide)

/-! ## google_places.py: provider client model -/

/-- SEARCH_FIELD_MASK (module constant). -/
def SEARCH_FIELD_MASK : String :=
  "places.id,places.displayName,places.formattedAddress,places.location,places.rating,places.priceLevel,places.types,places.currentOpeningHours,nextPageToken"

/-- DETAILS_FIELD_MASK (module constant). -/
def DETAILS_FIELD_MASK : String :=
  "id,displayName,formattedAddress,location,rating,priceLevel,types,regularOpeningHours,currentOpeningHours,nationalPhoneNumber,websiteUri"

/-- RESOLVE_FIELD_MASK (module constant). -/
def RESOLVE_FIELD_MASK : String :=
  "places.id,places.displayName,places.formattedAddress,places.location,places.types"

/-- The environment read through `os.getenv`: the API key (looked up per
call in api_headers) and the base URL (looked up at import time, with the
production default). -/
structure Env where
  apiKey : Option String
  baseUrl : String := "https://places.googleapis.com/v1"

/-- One outbound HTTP call as issued through httpx. -/
structure HttpCall where
  method : String
  url : String
  payload : Option (List (String × JValue))
  headers : List (String × String)

/-- What the network does with a call: either a transport-level failure
(`httpx.HTTPError`: timeout, connection refused, DNS failure) or a response
with a status code, the parse of its body (`none` when `response.json()`
would raise ValueError) and the raw text used for logging. -/
inductive TransportResult where
  | transportError : TransportResult
  | response : Nat → Option JValue → String → TransportResult

/-- The network itself, substituted per scenario. -/
abbrev Transport : Type := HttpCall → TransportResult

/-- The `_GoogleResponse` wrapper: status code, body parse, raw text. -/
structure GoogleResponse where
  status_code : Nat
  jsonBody : Option JValue
  text : String

/-- The error taxonomy.  Each constructor is one `raise HTTPException` site
of google_places.py and carries its detail string; `upstreamHTTPError` also
carries the upstream status code that the detail interpolates.
`internalError` stands for a Python exception escaping normalization
(AttributeError / TypeError / pydantic validation on an ill-typed payload),
which no handler catches. -/
inductive ApiError where
  | configurationError : String → ApiError
  | unavailableError : String → ApiError
  | upstreamHTTPError : Nat → String → ApiError
  | upstreamProtocolError : String → ApiError
  | internalError : String → ApiError

/-- api_headers: fail fast with the ConfigurationError when the key is
absent (or empty, which `if not api_key` also treats as missing), else the
three request headers. -/
def api_headers (env : Env) (field_mask : String) :
    Except ApiError (List (String × String)) :=
  match env.apiKey with
  | none => .error (.configurationError "GOOGLE_PLACES_API_KEY is not set.")
  | some key =>
      if key = "" then .error (.configurationError "GOOGLE_PLACES_API_KEY is not set.")
      else .ok [("Content-Type", "application/json"),
                ("X-Goog-Api-Key", key),
                ("X-Goog-FieldMask", field_mask)]

/-- The `_request` helper: resolve headers (failing fast before any network
activity), then perform exactly one HTTP call, translating
`httpx.HTTPError` into the 502 unavailable error.  The second component
lists the network calls actually issued. -/
def request (env : Env) (t : Transport) (method url : String)
    (payload : Option (List (String × JValue))) (field_mask : String) :
    Except ApiError GoogleResponse × List HttpCall :=
  match api_headers env field_mask with
  | .error e => (.error e, [])
  | .ok headers =>
      let call : HttpCall := ⟨method, url, payload, headers⟩
      match t call with
      | .transportError =>
          (.error (.unavailableError "Google Places API unavailable."), [call])
      | .response status body text => (.ok ⟨status, body, text⟩, [call])

/-! ## google_places.py: response normalization -/

/-- A `dict.get` result seen from Python: a JSON null reads back as None. -/
def optVal : Option JValue → Option JValue
  | none => none
  | some .null => none
  | some v => some v

/-- Reading an optional value into a pydantic `str | None` slot: missing or
null is absent, a string is kept, anything else fails model validation. -/
def optStrField : Option JValue → Except String (Option String)
  | none => .ok none
  | some .null => .ok none
  | some (.str s) => .ok (some s)
  | some _ => .error "ValidationError: str expected"

/-- Reading an optional value into a pydantic `float | None` slot. -/
def optNumField : Option JValue → Except String (Option ℚ)
  | none => .ok none
  | some .null => .ok none
  | some (.num q) => .ok (some q)
  | some _ => .error "ValidationError: float expected"

/-- Reading an optional value into a pydantic `bool | None` slot. -/
def optBoolField : Option JValue → Except String (Option Bool)
  | none => .ok none
  | some .null => .ok none
  | some (.bool b) => .ok (some b)
  | some _ => .error "ValidationError: bool expected"

/-- Reading a JSON array into a `list[str]`. -/
def strList : List JValue → Except String (List String)
  | [] => .ok []
  | .str s :: rest =>
      match strList rest with
      | .ok ss => .ok (s :: ss)
      | .error e => .error e
  | _ => .error "ValidationError: str expected"

/-- Reading an optional value into a pydantic `list[str] | None` slot. -/
def optStrListField : Option JValue → Except String (Option (List String))
  | none => .ok none
  | some .null => .ok none
  | some (.arr xs) =>
      match strList xs with
      | .ok ss => .ok (some ss)
      | .error e => .error e
  | some _ => .error "ValidationError: list expected"

/-- Reading `payload.get(key, default)` into a pydantic `str` slot: a missing key
takes the default, a string is kept, anything else (a null included) fails
model validation. -/
def strFieldD (v : Option JValue) (d : String) : Except String String :=
  match v with
  | none => .ok d
  | some (.str s) => .ok s
  | some _ => .error "ValidationError: str expected"

/-- Constructing a LatLng model: pydantic enforces the Field bounds. -/
def mkLatLng (lat lng : ℚ) : Except String LatLng :=
  if -90 ≤ lat ∧ lat ≤ 90 ∧ -180 ≤ lng ∧ lng ≤ 180 then .ok ⟨lat, lng⟩
  else .error "ValidationError: coordinate out of range"

/-- The _parse_lat_lng helper: falsy input (absent, null, empty object, ...) gives no
coordinate; a coordinate is produced only when both latitude and longitude
are present and non-null (then the LatLng model is validated); `.get` on a
truthy non-dict would raise AttributeError. -/
def parse_lat_lng (raw : Option JValue) : Except String (Option LatLng) :=
  match raw with
  | none => .ok none
  | some v =>
      if jFalsy v then .ok none
      else match v with
        | .obj fields =>
            match optVal (jLookup fields "latitude"),
                  optVal (jLookup fields "longitude") with
            | none, _ => .ok none
            | some _, none => .ok none
            | some lv, some gv =>
                match lv, gv with
                | .num lat, .num lng =>
                    match mkLatLng lat lng with
                    | .ok ll => .ok (some ll)
                    | .error e => .error e
                | _, _ => .error "ValidationError: float expected"
        | _ => .error "AttributeError"

/-- The _parse_display_name helper: read the text sub-field of the displayName object
into a `str | None` slot. -/
def parse_display_name (raw : Option JValue) : Except String (Option String) :=
  match raw with
  | none => .ok none
  | some v =>
      if jFalsy v then .ok none
      else match v with
        | .obj fields => optStrField (jLookup fields "text")
        | _ => .error "AttributeError"

/-- The _parse_open_now helper: read the openNow sub-field of the currentOpeningHours
object into a `bool | None` slot. -/
def parse_open_now (raw : Option JValue) : Except String (Option Bool) :=
  match raw with
  | none => .ok none
  | some v =>
      if jFalsy v then .ok none
      else match v with
        | .obj fields => optBoolField (jLookup fields "openNow")
        | _ => .error "AttributeError"

/-- The _parse_hours helper: read the weekdayDescriptions sub-field of the
regularOpeningHours object into a `list[str] | None` slot. -/
def parse_hours (raw : Option JValue) : Except String (Option (List String)) :=
  match raw with
  | none => .ok none
  | some v =>
      if jFalsy v then .ok none
      else match v with
        | .obj fields => optStrListField (jLookup fields "weekdayDescriptions")
        | _ => .error "AttributeError"

/-- The _parse_price_level helper: falsy input gives no level; a string is looked up in
ENUM_TO_PRICE_LEVEL (`.get`, so an unknown name gives none, never an error);
other truthy hashable values miss the str-keyed dict; a truthy list or dict
used as a key would raise TypeError. -/
def parse_price_level (raw : Option JValue) : Except String (Option Int) :=
  match raw with
  | none => .ok none
  | some v =>
      if jFalsy v then .ok none
      else match v with
        | .str s => .ok (enumToPriceLevel s)
        | .arr _ => .error "TypeError: unhashable"
        | .obj _ => .error "TypeError: unhashable"
        | _ => .ok none

/-- One PlaceSummary record from one element of the places array (the loop
body of search_places); a non-dict element raises on `.get`. -/
def parsePlaceSummary (place : JValue) : Except String PlaceSummary :=
  match place with
  | .obj fs => do
      let pid ← strFieldD (jLookup fs "id") ""
      let nm ← parse_display_name (jLookup fs "displayName")
      let addr ← optStrField (jLookup fs "formattedAddress")
      let loc ← parse_lat_lng (jLookup fs "location")
      let rat ← optNumField (jLookup fs "rating")
      let pl ← parse_price_level (jLookup fs "priceLevel")
      let tys ← optStrListField (jLookup fs "types")
      let opn ← parse_open_now (jLookup fs "currentOpeningHours")
      return ⟨pid, nm, addr, loc, rat, pl, tys, opn⟩
  | _ => .error "AttributeError"

/-- One ResolvedLocation record from one element of the places array (the
loop body of resolve_locations). -/
def parseResolvedLocation (place : JValue) : Except String ResolvedLocation :=
  match place with
  | .obj fs => do
      let pid ← strFieldD (jLookup fs "id") ""
      let nm ← parse_display_name (jLookup fs "displayName")
      let addr ← optStrField (jLookup fs "formattedAddress")
      let loc ← parse_lat_lng (jLookup fs "location")
      let tys ← optStrListField (jLookup fs "types")
      return ⟨pid, nm, addr, loc, tys⟩
  | _ => .error "AttributeError"

/-- The PlaceDetails record of get_place_details: `payload.get("id",
place_id)` falls back to the requested id. -/
def parsePlaceDetails (place_id : String) (fs : List (String × JValue)) :
    Except String PlaceDetails := do
  let pid ← strFieldD (jLookup fs "id") place_id
  let nm ← parse_display_name (jLookup fs "displayName")
  let addr ← optStrField (jLookup fs "formattedAddress")
  let loc ← parse_lat_lng (jLookup fs "location")
  let rat ← optNumField (jLookup fs "rating")
  let pl ← parse_price_level (jLookup fs "priceLevel")
  let tys ← optStrListField (jLookup fs "types")
  let phone ← optStrField (jLookup fs "nationalPhoneNumber")
  let web ← optStrField (jLookup fs "websiteUri")
  let hrs ← parse_hours (jLookup fs "regularOpeningHours")
  let opn ← parse_open_now (jLookup fs "currentOpeningHours")
  return ⟨pid, nm, addr, loc, rat, pl, tys, phone, web, hrs, opn⟩

/-- The Python for-loop over places: one record per element, the first
escaping exception aborting the whole normalization. -/
def exceptMapList {α : Type} (f : JValue → Except String α) :
    List JValue → Except String (List α)
  | [] => .ok []
  | x :: xs =>
      match f x with
      | .error e => .error e
      | .ok y =>
          match exceptMapList f xs with
          | .error e => .error e
          | .ok ys => .ok (y :: ys)

/-- The classification block each operation runs on its response: a status
≥ 400 raises the 502 upstream error whose detail interpolates the status,
then a body that fails to parse as JSON raises the 502 protocol error. -/
def classifyResponse (resp : GoogleResponse) : Except ApiError JValue :=
  if 400 ≤ resp.status_code then
    .error (.upstreamHTTPError resp.status_code
      ("Google Places API error (" ++ toString resp.status_code ++ ")."))
  else
    match resp.jsonBody with
    | none => .error (.upstreamProtocolError "Invalid Google response.")
    | some payload => .ok payload

/-- A normalization failure is a Python exception escaping the handler. -/
def liftParse {α : Type} : Except String α → Except ApiError α
  | .error e => .error (.internalError e)
  | .ok a => .ok a

/-- Normalization of a search payload: `payload.get("places", [])`, one
PlaceSummary per element (no truncation), and the passthrough
nextPageToken. -/
def parseSearchPayload (payload : JValue) : Except String SearchResponse :=
  match payload with
  | .obj fs =>
      match (jLookup fs "places").getD (.arr []) with
      | .arr ps => do
          let results ← exceptMapList parsePlaceSummary ps
          let tok ← optStrField (jLookup fs "nextPageToken")
          return ⟨results, tok⟩
      | _ => .error "TypeError: places is not a list"
  | _ => .error "AttributeError"

/-- Normalization of a resolve payload: `payload.get("places", [])` and one
ResolvedLocation per element (no truncation to the request limit). -/
def parseResolvePayload (payload : JValue) : Except String LocationResolveResponse :=
  match payload with
  | .obj fs =>
      match (jLookup fs "places").getD (.arr []) with
      | .arr ps => do
          let results ← exceptMapList parseResolvedLocation ps
          return ⟨results⟩
      | _ => .error "TypeError: places is not a list"
  | _ => .error "AttributeError"

/-- Normalization of a details payload (the whole payload is the place). -/
def parseDetailsPayload (place_id : String) (payload : JValue) :
    Except String PlaceDetails :=
  match payload with
  | .obj fs => parsePlaceDetails place_id fs
  | _ => .error "AttributeError"

/-! ## google_places.py: operation orchestrators -/

/-- search_places: POST to places:searchText with the built body, classify
the response, normalize on success.  The second component is the list of
network calls issued. -/
def search_places (env : Env) (t : Transport) (req : SearchRequest) :
    Except ApiError SearchResponse × List HttpCall :=
  let url := env.baseUrl ++ "/places:searchText"
  match request env t "POST" url (some (build_search_body req)) SEARCH_FIELD_MASK with
  | (.error e, calls) => (.error e, calls)
  | (.ok resp, calls) =>
      match classifyResponse resp with
      | .error e => (.error e, calls)
      | .ok payload => (liftParse (parseSearchPayload payload), calls)

/-- get_place_details: GET to the per-place endpoint with no body. -/
def get_place_details (env : Env) (t : Transport) (place_id : String) :
    Except ApiError PlaceDetails × List HttpCall :=
  let url := env.baseUrl ++ "/places/" ++ place_id
  match request env t "GET" url none DETAILS_FIELD_MASK with
  | (.error e, calls) => (.error e, calls)
  | (.ok resp, calls) =>
      match classifyResponse resp with
      | .error e => (.error e, calls)
      | .ok payload => (liftParse (parseDetailsPayload place_id payload), calls)

/-- resolve_locations: POST to places:searchText with the minimal body of
location_text and limit. -/
def resolve_locations (env : Env) (t : Transport) (req : LocationResolveRequest) :
    Except ApiError LocationResolveResponse × List HttpCall :=
  let url := env.baseUrl ++ "/places:searchText"
  let body : List (String × JValue) :=
    [("textQuery", JValue.str req.location_text), ("pageSize", JValue.num req.limit)]
  match request env t "POST" url (some body) RESOLVE_FIELD_MASK with
  | (.error e, calls) => (.error e, calls)
  | (.ok resp, calls) =>
      match classifyResponse resp with
      | .error e => (.error e, calls)
      | .ok payload => (liftParse (parseResolvePayload payload), calls)

/-! ## Helper lemmas on the client model -/

theorem request_ok (env : Env) (t : Transport) (method url : String)
    (payload : Option (List (String × JValue))) (mask : String)
    (k : String) (s : Nat) (body : Option JValue) (txt : String)
    (hk : env.apiKey = some k) (hk' : k ≠ "")
    (ht : ∀ c, t c = .response s body txt) :
    request env t method url payload mask =
      (.ok ⟨s, body, txt⟩,
       [⟨method, url, payload,
         [("Content-Type", "application/json"), ("X-Goog-Api-Key", k),
          ("X-Goog-FieldMask", mask)]⟩]) := by
  simp [request, api_headers, hk, hk', ht]

theorem except_bind_ok {α β : Type} {m : Except String α} {f : α → Except String β}
    {b : β} (h : (m >>= f) = .ok b) : ∃ a, m = .ok a ∧ f a = .ok b := by
  cases m with
  | error e => simp [Bind.bind, Except.bind] at h
  | ok a => exact ⟨a, rfl, by simpa [Bind.bind, Except.bind] using h⟩

theorem optVal_eq_some {o : Option JValue} {v : JValue} (h : optVal o = some v) :
    o = some v := by
  cases o with
  | none => cases h
  | some w => cases w <;> simp [optVal] at h <;> rw [h]

theorem exceptMapList_length {α : Type} (f : JValue → Except String α)
    (ps : List JValue) (out : List α) (h : exceptMapList f ps = .ok out) :
    out.length = ps.length := by
  induction ps generalizing out with
  | nil =>
      unfold exceptMapList at h
      cases h
      rfl
  | cons x xs ih =>
      unfold exceptMapList at h
      cases hf : f x with
      | error e => rw [hf] at h; cases h
      | ok y =>
          rw [hf] at h
          cases hr : exceptMapList f xs with
          | error e => rw [hr] at h; cases h
          | ok ys =>
              rw [hr] at h
              cases h
              simp [ih ys hr]

theorem exceptMapList_get {α : Type} (f : JValue → Except String α)
    (ps : List JValue) (out : List α) (h : exceptMapList f ps = .ok out) :
    ∀ i (hi : i < ps.length) (hi' : i < out.length),
      f (ps.get ⟨i, hi⟩) = .ok (out.get ⟨i, hi'⟩) := by
  induction ps generalizing out with
  | nil => intro i hi; exact absurd hi (by simp)
  | cons x xs ih =>
      unfold exceptMapList at h
      cases hf : f x with
      | error e => rw [hf] at h; cases h
      | ok y =>
          rw [hf] at h
          cases hr : exceptMapList f xs with
          | error e => rw [hr] at h; cases h
          | ok ys =>
              rw [hr] at h
              cases h
              intro i hi hi'
              cases i with
              | zero => exact hf
              | succ n =>
                  exact ih ys hr n (Nat.lt_of_succ_lt_succ (by simpa using hi))
                    (Nat.lt_of_succ_lt_succ (by simpa using hi'))

theorem parseResolvedLocation_missing_id {gs : List (String × JValue)}
    {rl : ResolvedLocation} (hid : jLookup gs "id" = none)
    (h : parseResolvedLocation (.obj gs) = .ok rl) : rl.place_id = "" := by
  simp only [parseResolvedLocation] at h
  rw [hid] at h
  obtain ⟨pid, hpid, h⟩ := except_bind_ok h
  obtain ⟨nm, hnm, h⟩ := except_bind_ok h
  obtain ⟨addr, haddr, h⟩ := except_bind_ok h
  obtain ⟨loc, hloc, h⟩ := except_bind_ok h
  obtain ⟨tys, htys, h⟩ := except_bind_ok h
  simp only [strFieldD] at hpid
  cases hpid
  simp only [Pure.pure, Except.pure, Except.ok.injEq] at h
  rw [← h]

theorem parsePlaceSummary_missing_id {gs : List (String × JValue)}
    {sm : PlaceSummary} (hid : jLookup gs "id" = none)
    (h : parsePlaceSummary (.obj gs) = .ok sm) : sm.place_id = "" := by
  simp only [parsePlaceSummary] at h
  rw [hid] at h
  obtain ⟨pid, hpid, h⟩ := except_bind_ok h
  obtain ⟨nm, hnm, h⟩ := except_bind_ok h
  obtain ⟨addr, haddr, h⟩ := except_bind_ok h
  obtain ⟨loc, hloc, h⟩ := except_bind_ok h
  obtain ⟨rat, hrat, h⟩ := except_bind_ok h
  obtain ⟨pl, hpl, h⟩ := except_bind_ok h
  obtain ⟨tys, htys, h⟩ := except_bind_ok h
  obtain ⟨opn, hopn, h⟩ := except_bind_ok h
  simp only [strFieldD] at hpid
  cases hpid
  simp only [Pure.pure, Except.pure, Except.ok.injEq] at h
  rw [← h]

theorem parsePlaceDetails_fallback_id {pid0 : String} {fs : List (String × JValue)}
    {d : PlaceDetails} (hid : jLookup fs "id" = none)
    (h : parsePlaceDetails pid0 fs = .ok d) : d.place_id = pid0 := by
  simp only [parsePlaceDetails] at h
  rw [hid] at h
  obtain ⟨pid, hpid, h⟩ := except_bind_ok h
  obtain ⟨nm, hnm, h⟩ := except_bind_ok h
  obtain ⟨addr, haddr, h⟩ := except_bind_ok h
  obtain ⟨loc, hloc, h⟩ := except_bind_ok h
  obtain ⟨rat, hrat, h⟩ := except_bind_ok h
  obtain ⟨pl, hpl, h⟩ := except_bind_ok h
  obtain ⟨tys, htys, h⟩ := except_bind_ok h
  obtain ⟨phone, hphone, h⟩ := except_bind_ok h
  obtain ⟨web, hweb, h⟩ := except_bind_ok h
  obtain ⟨hrs, hhrs, h⟩ := except_bind_ok h
  obtain ⟨opn, hopn, h⟩ := except_bind_ok h
  simp only [strFieldD] at hpid
  cases hpid
  simp only [Pure.pure, Except.pure, Except.ok.injEq] at h
  rw [← h]

theorem parse_lat_lng_ok_some {raw : Option JValue} {ll : LatLng}
    (h : parse_lat_lng raw = .ok (some ll)) :
    ∃ fields lat lng, raw = some (.obj fields) ∧
      jLookup fields "latitude" = some (.num lat) ∧
      jLookup fields "longitude" = some (.num lng) ∧
      ll = ⟨lat, lng⟩ := by
  rcases raw with _ | v
  · simp [parse_lat_lng] at h
  rcases v with _ | b | q | s | xs | fields
  · simp [parse_lat_lng, jFalsy] at h
  · cases b <;> simp [parse_lat_lng, jFalsy] at h
  · by_cases hq : q = 0 <;> simp [parse_lat_lng, jFalsy, hq] at h
  · by_cases hs : s = "" <;> simp [parse_lat_lng, jFalsy, hs] at h
  · cases xs <;> simp [parse_lat_lng, jFalsy] at h
  · by_cases hf : jFalsy (JValue.obj fields) = true
    · simp [parse_lat_lng, hf] at h
    · rcases hlat : optVal (jLookup fields "latitude") with _ | lv
      · simp [parse_lat_lng, hf, hlat] at h
      · rcases hlng : optVal (jLookup fields "longitude") with _ | gv
        · simp [parse_lat_lng, hf, hlat, hlng] at h
        · rcases lv with _ | b | qlat | sv | xsv | gsv
          · simp [parse_lat_lng, hf, hlat, hlng] at h
          · simp [parse_lat_lng, hf, hlat, hlng] at h
          · rcases gv with _ | b2 | qlng | sv2 | xsv2 | gsv2
            · simp [parse_lat_lng, hf, hlat, hlng] at h
            · simp [parse_lat_lng, hf, hlat, hlng] at h
            · simp only [parse_lat_lng, hlat, hlng, hf, Bool.false_eq_true,
                if_false] at h
              cases hmk : mkLatLng qlat qlng with
              | error e =>
                  rw [hmk] at h
                  simp at h
              | ok ll2 =>
                  rw [hmk] at h
                  simp only [Except.ok.injEq, Option.some.injEq] at h
                  unfold mkLatLng at hmk
                  split_ifs at hmk with hb
                  · simp only [Except.ok.injEq] at hmk
                    exact ⟨fields, qlat, qlng, rfl, optVal_eq_some hlat,
                      optVal_eq_some hlng, by rw [← h, ← hmk]⟩
            · simp [parse_lat_lng, hf, hlat, hlng] at h
            · simp [parse_lat_lng, hf, hlat, hlng] at h
            · simp [parse_lat_lng, hf, hlat, hlng] at h
          · simp [parse_lat_lng, hf, hlat, hlng] at h
          · simp [parse_lat_lng, hf, hlat, hlng] at h
          · simp [parse_lat_lng, hf, hlat, hlng] at h

/-! ## Claim theorems on the client -/

/-- C1: when the configured credential is absent, every operation fails with
the ConfigurationError carrying the missing-credential detail, and the list
of issued network calls is empty. -/
theorem C1_missing_credential_fail_fast (env : Env) (t : Transport)
    (req : SearchRequest) (rreq : LocationResolveRequest) (pid : String)
    (h : env.apiKey = none) :
    search_places env t req =
      (.error (.configurationError "GOOGLE_PLACES_API_KEY is not set."), []) ∧
    get_place_details env t pid =
      (.error (.configurationError "GOOGLE_PLACES_API_KEY is not set."), []) ∧
    resolve_locations env t rreq =
      (.error (.configurationError "GOOGLE_PLACES_API_KEY is not set."), []) := by
  refine ⟨?_, ?_, ?_⟩ <;>
    simp [search_places, get_place_details, resolve_locations, request, api_headers, h]

/-- C1 witness: a concrete keyless environment, with a transport that would
fail if ever invoked. -/
theorem C1_missing_credential_fail_fast_witness :
    search_places ⟨none, "https://places.googleapis.com/v1"⟩
        (fun _ => .transportError) { query := "coffee" } =
      (.error (.configurationError "GOOGLE_PLACES_API_KEY is not set."), []) ∧
    get_place_details ⟨none, "https://places.googleapis.com/v1"⟩
        (fun _ => .transportError) "abc123" =
      (.error (.configurationError "GOOGLE_PLACES_API_KEY is not set."), []) ∧
    resolve_locations ⟨none, "https://places.googleapis.com/v1"⟩
        (fun _ => .transportError) { location_text := "Eiffel Tower" } =
      (.error (.configurationError "GOOGLE_PLACES_API_KEY is not set."), []) :=
  C1_missing_credential_fail_fast _ _ { query := "coffee" }
    { location_text := "Eiffel Tower" } "abc123" rfl

/-- C3: with the credential present and the provider answering every call
with one fixed response, a status ≥ 400 short-circuits every operation to
the UpstreamHTTPError whose detail interpolates that status (the outcome is
that error alone, so no partial results), and a status < 400 whose body
fails to parse as JSON short-circuits to the UpstreamProtocolError. -/
theorem C3_upstream_error_classification (env : Env) (t : Transport)
    (req : SearchRequest) (rreq : LocationResolveRequest) (pid : String)
    (k : String) (s : Nat) (body : Option JValue) (txt : String)
    (hk : env.apiKey = some k) (hk' : k ≠ "")
    (ht : ∀ c, t c = .response s body txt) :
    (400 ≤ s →
      (search_places env t req).1 = .error (.upstreamHTTPError s
        ("Google Places API error (" ++ toString s ++ ").")) ∧
      (get_place_details env t pid).1 = .error (.upstreamHTTPError s
        ("Google Places API error (" ++ toString s ++ ").")) ∧
      (resolve_locations env t rreq).1 = .error (.upstreamHTTPError s
        ("Google Places API error (" ++ toString s ++ ")."))) ∧
    (s < 400 → body = none →
      (search_places env t req).1 =
        .error (.upstreamProtocolError "Invalid Google response.") ∧
      (get_place_details env t pid).1 =
        .error (.upstreamProtocolError "Invalid Google response.") ∧
      (resolve_locations env t rreq).1 =
        .error (.upstreamProtocolError "Invalid Google response.")) := by
  have h1 := request_ok env t "POST" (env.baseUrl ++ "/places:searchText")
    (some (build_search_body req)) SEARCH_FIELD_MASK k s body txt hk hk' ht
  have h2 := request_ok env t "GET" (env.baseUrl ++ "/places/" ++ pid)
    none DETAILS_FIELD_MASK k s body txt hk hk' ht
  have h3 := request_ok env t "POST" (env.baseUrl ++ "/places:searchText")
    (some [("textQuery", JValue.str rreq.location_text),
           ("pageSize", JValue.num rreq.limit)]) RESOLVE_FIELD_MASK k s body txt hk hk' ht
  constructor
  · intro h400
    refine ⟨?_, ?_, ?_⟩
    · simp [search_places, h1, classifyResponse, h400]
    · simp [get_place_details, h2, classifyResponse, h400]
    · simp [resolve_locations, h3, classifyResponse, h400]
  · intro hlt hbody
    have hns : ¬ 400 ≤ s := by omega
    refine ⟨?_, ?_, ?_⟩
    · simp [search_places, h1, classifyResponse, hns, hbody]
    · simp [get_place_details, h2, classifyResponse, hns, hbody]
    · simp [resolve_locations, h3, classifyResponse, hns, hbody]

/-- C3 witness: a stub answering 500 yields the UpstreamHTTPError with
status 500 on all three operations; a stub answering 200 with an
unparseable body yields the UpstreamProtocolError. -/
theorem C3_upstream_error_classification_witness :
    (search_places ⟨some "key", "B"⟩ (fun _ => .response 500 none "boom")
        { query := "coffee" }).1 =
      .error (.upstreamHTTPError 500
        ("Google Places API error (" ++ toString 500 ++ ").")) ∧
    (get_place_details ⟨some "key", "B"⟩ (fun _ => .response 500 none "boom")
        "abc123").1 =
      .error (.upstreamHTTPError 500
        ("Google Places API error (" ++ toString 500 ++ ").")) ∧
    (resolve_locations ⟨some "key", "B"⟩ (fun _ => .response 500 none "boom")
        { location_text := "Eiffel Tower" }).1 =
      .error (.upstreamHTTPError 500
        ("Google Places API error (" ++ toString 500 ++ ").")) ∧
    (get_place_details ⟨some "key", "B"⟩ (fun _ => .response 200 none "not json")
        "abc123").1 =
      .error (.upstreamProtocolError "Invalid Google response.") := by
  have hA := C3_upstream_error_classification ⟨some "key", "B"⟩
    (fun _ => .response 500 none "boom") { query := "coffee" }
    { location_text := "Eiffel Tower" } "abc123" "key" 500 none "boom"
    rfl (by decide) (fun c => rfl)
  have hB := C3_upstream_error_classification ⟨some "key", "B"⟩
    (fun _ => .response 200 none "not json") { query := "coffee" }
    { location_text := "Eiffel Tower" } "abc123" "key" 200 none "not json"
    rfl (by decide) (fun c => rfl)
  obtain ⟨hs, hd, hr⟩ := hA.1 (by omega)
  exact ⟨hs, hd, hr, (hB.2 (by omega) rfl).2.1⟩

/-- C8: coordinate extraction yields a coordinate only when both latitude
and longitude are present: an absent or null location object, or either
component missing or null, gives an absent coordinate and no error; and any
produced coordinate comes from both components present as numbers, so it is
never partially populated. -/
theorem C8_coordinate_requires_both (raw : Option JValue) :
    (raw = none → parse_lat_lng raw = .ok none) ∧
    (raw = some .null → parse_lat_lng raw = .ok none) ∧
    (∀ fields, raw = some (.obj fields) →
      (optVal (jLookup fields "latitude") = none ∨
       optVal (jLookup fields "longitude") = none) →
      parse_lat_lng raw = .ok none) ∧
    (∀ ll, parse_lat_lng raw = .ok (some ll) →
      ∃ fields lat lng, raw = some (.obj fields) ∧
        jLookup fields "latitude" = some (.num lat) ∧
        jLookup fields "longitude" = some (.num lng) ∧
        ll = ⟨lat, lng⟩) := by
  refine ⟨?_, ?_, ?_, fun ll h => parse_lat_lng_ok_some h⟩
  · rintro rfl; rfl
  · rintro rfl; rfl
  · intro fields hraw hmiss
    subst hraw
    by_cases hf : jFalsy (JValue.obj fields) = true
    · simp [parse_lat_lng, hf]
    · rcases hmiss with hmiss | hmiss
      · simp [parse_lat_lng, hf, hmiss]
      · rcases hlat : optVal (jLookup fields "latitude") with _ | lv
        · simp [parse_lat_lng, hf, hlat]
        · simp [parse_lat_lng, hf, hlat, hmiss]

/-- C8 witness: a location object with a latitude but no longitude gives an
absent coordinate with no error. -/
theorem C8_coordinate_requires_both_witness :
    parse_lat_lng (some (.obj [("latitude", JValue.num 1)])) = .ok none :=
  (C8_coordinate_requires_both (some (.obj [("latitude", JValue.num 1)]))).2.2.1
    [("latitude", JValue.num 1)] rfl (Or.inr rfl)

/-- C9: when the details payload has no id key, the returned
PlaceDetails.place_id is the requested place id (hence nonempty exactly when
the argument is), while the search and resolve normalizations default a
missing id to the empty string. -/
theorem C9_details_place_id_fallback (env : Env) (t : Transport) (pid : String)
    (k txt : String) (fs : List (String × JValue)) (d : PlaceDetails)
    (hk : env.apiKey = some k) (hk' : k ≠ "")
    (ht : ∀ c, t c = .response 200 (some (.obj fs)) txt)
    (hid : jLookup fs "id" = none)
    (hd : (get_place_details env t pid).1 = .ok d) :
    d.place_id = pid ∧
    (∀ gs sm, jLookup gs "id" = none → parsePlaceSummary (.obj gs) = .ok sm →
      sm.place_id = "") ∧
    (∀ gs rl, jLookup gs "id" = none → parseResolvedLocation (.obj gs) = .ok rl →
      rl.place_id = "") := by
  refine ⟨?_, fun gs sm h1 h2 => parsePlaceSummary_missing_id h1 h2,
    fun gs rl h1 h2 => parseResolvedLocation_missing_id h1 h2⟩
  have h2 := request_ok env t "GET" (env.baseUrl ++ "/places/" ++ pid)
    none DETAILS_FIELD_MASK k 200 (some (.obj fs)) txt hk hk' ht
  have hrun : (get_place_details env t pid).1 = liftParse (parsePlaceDetails pid fs) := by
    simp [get_place_details, h2, classifyResponse, parseDetailsPayload]
  rw [hrun] at hd
  cases hp : parsePlaceDetails pid fs with
  | error e => rw [hp] at hd; simp [liftParse] at hd
  | ok d0 =>
      rw [hp] at hd
      simp only [liftParse, Except.ok.injEq] at hd
      rw [← hd]
      exact parsePlaceDetails_fallback_id hid hp

/-- C9 witness: an empty details payload for place id abc123 yields a
PlaceDetails whose place_id is abc123. -/
theorem C9_details_place_id_fallback_witness :
    (get_place_details ⟨some "key", "B"⟩
        (fun _ => .response 200 (some (.obj [])) "") "abc123").1 =
      .ok ⟨"abc123", none, none, none, none, none, none, none, none, none, none⟩ ∧
    (⟨"abc123", none, none, none, none, none, none, none, none, none,
       none⟩ : PlaceDetails).place_id = "abc123" := by
  constructor
  · rfl
  · exact (C9_details_place_id_fallback ⟨some "key", "B"⟩
      (fun _ => .response 200 (some (.obj [])) "") "abc123" "key" "" [] _
      rfl (by decide) (fun c => rfl) rfl rfl).1

/-- C5 counterexample: a validated ResolveLocations request with limit 1,
against a payload of two places neither of which carries an id, returns two
entries (more than the limit), each with an empty place identifier. -/
theorem C5_limit_not_enforced_counterexample :
    locationResolveRequestValid { location_text := "Eiffel Tower", limit := 1 } = true ∧
    (resolve_locations ⟨some "key", "B"⟩
        (fun _ => .response 200
          (some (.obj [("places", .arr [.obj [], .obj []])])) "")
        { location_text := "Eiffel Tower", limit := 1 }).1 =
      .ok ⟨[⟨"", none, none, none, none⟩, ⟨"", none, none, none, none⟩]⟩ :=
  ⟨rfl, rfl⟩

/-- C5 amended: ResolveLocations does not truncate its output — it returns
exactly one entry per element of the payload's places array, each entry the
normalization of the corresponding element (a missing id defaulting to the
empty string, which may be empty), while the request limit is only forwarded
as the body's pageSize; at most n entries with nonempty identifiers hold
only when the provider honours pageSize and supplies ids. -/
theorem C5_resolve_returns_payload_places (env : Env) (t : Transport)
    (req : LocationResolveRequest) (k txt : String)
    (fs : List (String × JValue)) (ps : List JValue) (rs : List ResolvedLocation)
    (hk : env.apiKey = some k) (hk' : k ≠ "")
    (ht : ∀ c, t c = .response 200 (some (.obj fs)) txt)
    (hp : jLookup fs "places" = some (.arr ps))
    (hm : exceptMapList parseResolvedLocation ps = .ok rs) :
    (resolve_locations env t req).1 = .ok ⟨rs⟩ ∧
    rs.length = ps.length ∧
    (∀ i (hi : i < ps.length) (hi' : i < rs.length),
      parseResolvedLocation (ps.get ⟨i, hi⟩) = .ok (rs.get ⟨i, hi'⟩)) ∧
    (∀ gs rl, jLookup gs "id" = none → parseResolvedLocation (.obj gs) = .ok rl →
      rl.place_id = "") ∧
    (∀ c ∈ (resolve_locations env t req).2,
      c.payload = some [("textQuery", JValue.str req.location_text),
                        ("pageSize", JValue.num req.limit)]) := by
  have h3 := request_ok env t "POST" (env.baseUrl ++ "/places:searchText")
    (some [("textQuery", JValue.str req.location_text),
           ("pageSize", JValue.num req.limit)]) RESOLVE_FIELD_MASK k 200
    (some (.obj fs)) txt hk hk' ht
  refine ⟨?_, exceptMapList_length _ ps rs hm,
    exceptMapList_get _ ps rs hm,
    fun gs rl h1 h2 => parseResolvedLocation_missing_id h1 h2, ?_⟩
  · simp [resolve_locations, h3, classifyResponse, parseResolvePayload, hp, hm,
      liftParse, Pure.pure, Except.pure, Bind.bind, Except.bind]
  · intro c hc
    have hcalls : (resolve_locations env t req).2 =
        [⟨"POST", env.baseUrl ++ "/places:searchText",
          some [("textQuery", JValue.str req.location_text),
                ("pageSize", JValue.num req.limit)],
          [("Content-Type", "application/json"), ("X-Goog-Api-Key", k),
           ("X-Goog-FieldMask", RESOLVE_FIELD_MASK)]⟩] := by
      simp [resolve_locations, h3, classifyResponse, parseResolvePayload, hp, hm, liftParse]
    rw [hcalls] at hc
    simp only [List.mem_singleton] at hc
    rw [hc]

/-- C5 amended witness: a payload with one identified and one id-less place
yields exactly those two entries, in payload order. -/
theorem C5_resolve_returns_payload_places_witness :
    (resolve_locations ⟨some "key", "B"⟩
        (fun _ => .response 200
          (some (.obj [("places",
            .arr [.obj [("id", .str "p1")], .obj []])])) "")
        { location_text := "Eiffel Tower", limit := 3 }).1 =
      .ok ⟨[⟨"p1", none, none, none, none⟩, ⟨"", none, none, none, none⟩]⟩ ∧
    ([(⟨"p1", none, none, none, none⟩ : ResolvedLocation),
      ⟨"", none, none, none, none⟩]).length =
      ([JValue.obj [("id", JValue.str "p1")], JValue.obj []]).length := by
  have h := C5_resolve_returns_payload_places ⟨some "key", "B"⟩
    (fun _ => .response 200
      (some (.obj [("places", .arr [.obj [("id", .str "p1")], .obj []])])) "")
    { location_text := "Eiffel Tower", limit := 3 } "key" ""
    [("places", .arr [.obj [("id", .str "p1")], .obj []])]
    [.obj [("id", .str "p1")], .obj []]
    [⟨"p1", none, none, none, none⟩, ⟨"", none, none, none, none⟩]
    rfl (by decide) (fun c => rfl) rfl rfl
  exact ⟨h.1, h.2.1⟩

end LocalPlaces
